import Mathlib

/-!
A shallow embedding of the Traeger grill client
(`custom_components/traeger/traeger.py` and `custom_components/traeger/model.py`),
together with theorems settling the specification claims about it.

Modelling conventions:
* Python `int` is `Int`, `str` is `String`, `bool` is `Bool`.
* The wall clock (`time.time()`) is an explicit `Int` parameter `now`,
  in seconds.
* Python dictionaries (`grill_status`, `grill_callbacks`) are association
  lists over `String` keys, with `alookup`/`ainsert` helpers.
* Callback closures are identified by opaque `Nat` tags; "invoking" the
  callbacks for a device is modelled by returning the list of tags fired.
* Network I/O is an explicit parameter: the outcome of an HTTP call
  (`ApiOutcome`, `MqttUrlResponse`) is passed in, and uncaught Python
  exceptions are surfaced as `PyErr` values in the result.
-/

namespace Traeger

/-! ## Character-level string helpers (Python `str` operations)

`String.startsWith`/`String.drop` from core operate on byte positions and do
not reduce inside the kernel, so Python's `str.startswith` and slicing are
modelled on the underlying character lists. -/

/-- Python `str.startswith`: does the character list of `pre` match an
initial segment of the character list of `s`? -/
def charsMatch : List Char → List Char → Bool
  | [], _ => true
  | _ :: _, [] => false
  | p :: ps, c :: cs => (p == c) && charsMatch ps cs

def strStartsWith (s pre : String) : Bool := charsMatch pre.data s.data

def strDrop (s : String) (n : Nat) : String := String.mk (s.data.drop n)

def strLen (s : String) : Nat := s.data.length

/-- Python's format specifier `%05d` / `f"{n:05d}"`: decimal rendering of an
integer zero-padded to a minimum total width of 5 (the sign, if any, counts
toward the width and precedes the padding). -/
def pyFormat05d (n : Int) : String :=
  let digits := toString n.natAbs
  let sign := if n < 0 then "-" else ""
  sign ++ String.mk (List.replicate (5 - strLen sign - strLen digits) '0') ++ digits

/-! ## Association-list dictionaries -/

def alookup {α : Type} : List (String × α) → String → Option α
  | [], _ => none
  | (k, v) :: rest, key => if k = key then some v else alookup rest key

def ainsert {α : Type} : List (String × α) → String → α → List (String × α)
  | [], key, v => [(key, v)]
  | (k, w) :: rest, key, v =>
    if k = key then (key, v) :: rest else (k, w) :: ainsert rest key v

/-! ## Data model (`model.py`) -/

/-- GrillMode numeric values (`model.py`, class GrillMode(IntEnum)).
`system_status` is stored as the underlying integer. -/
def GrillMode.OFFLINE : Int := 99

def GrillMode.SHUTDOWN : Int := 9

def GrillMode.COOL_DOWN : Int := 8

def GrillMode.CUSTOM_COOK : Int := 7

def GrillMode.MANUAL_COOK : Int := 6

def GrillMode.PREHEATING : Int := 5

def GrillMode.IGNITING : Int := 4

def GrillMode.IDLE : Int := 3

def GrillMode.SLEEPING : Int := 2

structure Image where
  defaultHost : String
  endpoint : String
  name : String
deriving DecidableEq

structure GrillModel where
  colors : Option Unit
  controller : String
  description : String
  deviceTypeId : String
  group : String
  image : Image
  iotCapable : Bool
  isTraegerBrand : Bool
  make : String
  modelNumber : String
  name : String
  ownersManualUrl : String
  referenceProductId : String
deriving DecidableEq

structure Thing where
  thingName : String
  friendlyName : String
  deviceTypeId : String
  userId : String
  status : String
  productId : String
  grillModel : GrillModel
deriving DecidableEq

structure Probe where
  get_temp : Int
  set_temp : Int
  alarm_fired : Int
deriving DecidableEq

structure Acc where
  uuid : String
  channel : String
  type : String
  con : Int
  probe : Probe
deriving DecidableEq

structure Status where
  pellet_level : Int
  real_time : Int
  time : Int
  errors : Int
  sys_timer_start : Int
  cook_id : String
  probe : Int
  server_status : Int
  units : Int
  grill : Int
  probe_set : Int
  current_step : Int
  system_status : Int
  sys_timer_end : Int
  set : Int
  in_custom : Int
  smoke : Int
  cook_timer_complete : Int
  current_cycle : Int
  probe_alarm_fired : Int
  ambient : Int
  probe_con : Int
  sys_timer_complete : Int
  cook_timer_start : Int
  cook_timer_end : Int
  keepwarm : Int
  connected : Bool
  acc : List Acc

/-- Field-by-field decidable equality; the deriving handler does not scale to
a structure of this width. -/
instance : DecidableEq Status := fun a b =>
  decidable_of_iff
    (a.pellet_level = b.pellet_level ∧ a.real_time = b.real_time ∧ a.time = b.time ∧
     a.errors = b.errors ∧ a.sys_timer_start = b.sys_timer_start ∧ a.cook_id = b.cook_id ∧
     a.probe = b.probe ∧ a.server_status = b.server_status ∧ a.units = b.units ∧
     a.grill = b.grill ∧ a.probe_set = b.probe_set ∧ a.current_step = b.current_step ∧
     a.system_status = b.system_status ∧ a.sys_timer_end = b.sys_timer_end ∧ a.set = b.set ∧
     a.in_custom = b.in_custom ∧ a.smoke = b.smoke ∧
     a.cook_timer_complete = b.cook_timer_complete ∧ a.current_cycle = b.current_cycle ∧
     a.probe_alarm_fired = b.probe_alarm_fired ∧ a.ambient = b.ambient ∧
     a.probe_con = b.probe_con ∧ a.sys_timer_complete = b.sys_timer_complete ∧
     a.cook_timer_start = b.cook_timer_start ∧ a.cook_timer_end = b.cook_timer_end ∧
     a.keepwarm = b.keepwarm ∧ a.connected = b.connected ∧ a.acc = b.acc)
    (by cases a; cases b; rw [Status.mk.injEq])

structure Features where
  pellet_sensor_enabled : Int
  pellet_sensor_connected : Int
  open_loop_mode_enabled : Int
  cold_smoke_enabled : Int
  grill_mode_enabled : Int
  time : Int
  super_smoke_enabled : Int
deriving DecidableEq

structure Limits where
  max_grill_temp : Int
deriving DecidableEq

structure Settings where
  rssi : Int
  units : Int
  time : Int
  config_version : String
  feature : Int
  speaker : Int
  device_type_id : Int
  language : Int
  fw_version : String
  ssid : String
  fw_build_num : String
deriving DecidableEq

structure ErrorStats where
  bad_thermocouple : Int
  ignite_fail : Int
  auger_ovrcur : Int
  overheat : Int
  lowtemp : Int
  auger_disco : Int
  low_ambient : Int
  fan_disco : Int
  ign_disco : Int
deriving DecidableEq

structure Usage where
  auger : Int
  grill_clean_countdown : Int
  time : Int
  error_stats : ErrorStats
  fan : Int
  runtime : Int
  hotrod : Int
  grease_trap_clean_countdown : Int
  cook_cycles : Int
deriving DecidableEq

structure Step where
  probe_set_temp : Int
  time_set : Int
  keepwarm : Int
  smoke : Int
  step_num : Int
  set_temp : Int
  use_timer : Int
deriving DecidableEq

structure CookCycle where
  cycle_name : Option String
  populated : Int
  num_steps : Option Int
  units : Option Int
  slot_num : Int
  steps : Option (List Step)
deriving DecidableEq

structure CustomCook where
  cook_cycles : List CookCycle
deriving DecidableEq

structure Details where
  thingName : String
  userId : String
  lastConnectedOn : Int
  thingNameLower : String
  friendlyName : String
  lat : String
  long : String
  deviceType : String
deriving DecidableEq

/-- `Device` (`model.py`). The `jobs: List[Any]` payload is opaque and is
never read by the client; its element type is modelled as `Unit`. -/
structure Device where
  thingName : String
  jobs : List Unit
  status : Status
  features : Features
  limits : Limits
  settings : Settings
  usage : Usage
  custom_cook : CustomCook
  stateIndex : Int
  schemaVersion : String
  details : Details
deriving DecidableEq

/-! ## Client state (`traeger.py`, class traeger) -/

/-- Uncaught Python exceptions relevant to the client, plus the spec's
`AuthError` (part of the specification's error taxonomy; the embedded code
never raises it, which is what some claims are about). -/
inductive PyErr
  | keyError (key : String)
  | jsonDecodeError
  | daciteError
  | authError
deriving DecidableEq

/-- The mutable attributes of the `traeger` class that the claims concern
(`__init__`, traeger.py lines 42-70). `hass`, `loop`, `request`, `mqtt_uuid`
and `access_token` (never used after init) are omitted; `task` and
`mqtt_client` record only presence, since the claims read nothing else from
them. -/
structure TraegerState where
  username : String
  password : String
  mqtt_thread_running : Bool
  mqtt_thread_refreshing : Bool
  grills_active : Bool
  grills : List Thing
  task : Option Unit
  mqtt_url : Option String
  mqtt_client : Option Unit
  grill_status : List (String × Device)
  token : Option String
  token_expires : Int
  mqtt_url_expires : Int
  grill_callbacks : List (String × List Nat)
  mqtt_client_inloop : Bool
  autodisconnect : Bool

instance : DecidableEq TraegerState := fun a b =>
  decidable_of_iff
    (a.username = b.username ∧ a.password = b.password ∧
     a.mqtt_thread_running = b.mqtt_thread_running ∧
     a.mqtt_thread_refreshing = b.mqtt_thread_refreshing ∧
     a.grills_active = b.grills_active ∧ a.grills = b.grills ∧ a.task = b.task ∧
     a.mqtt_url = b.mqtt_url ∧ a.mqtt_client = b.mqtt_client ∧
     a.grill_status = b.grill_status ∧ a.token = b.token ∧
     a.token_expires = b.token_expires ∧ a.mqtt_url_expires = b.mqtt_url_expires ∧
     a.grill_callbacks = b.grill_callbacks ∧ a.mqtt_client_inloop = b.mqtt_client_inloop ∧
     a.autodisconnect = b.autodisconnect)
    (by cases a; cases b; rw [TraegerState.mk.injEq])

/-- The `__init__` state (traeger.py lines 42-70): empty stores, token already
expired (`token_expires = 0`), `mqtt_url_expires = time.time()`. -/
def initClient (username password : String) (now : Int) : TraegerState :=
  { username := username, password := password,
    mqtt_thread_running := false, mqtt_thread_refreshing := false,
    grills_active := false, grills := [], task := none,
    mqtt_url := none, mqtt_client := none, grill_status := [],
    token := none, token_expires := 0, mqtt_url_expires := now,
    grill_callbacks := [], mqtt_client_inloop := false, autodisconnect := false }

/-! ## Credential manager (`__token_remaining`, `__do_cognito`,
`__refresh_token`, `__api_wrapper`) -/

/-- `__token_remaining` (traeger.py lines 72-74):
`self.token_expires - time.time()`. -/
def token_remaining (s : TraegerState) (now : Int) : Int := s.token_expires - now

/-- The `AuthenticationResult` object of a successful Cognito response
(the two keys `__refresh_token` reads). -/
structure AuthResult where
  ExpiresIn : Int
  IdToken : String
deriving DecidableEq

/-- Outcome of the HTTP call made by `__api_wrapper` for the Cognito login
(`__do_cognito`). `success body` is an HTTP response whose JSON parsed; `body`
is its `AuthenticationResult` member, absent when the identity provider
rejected the credentials (error responses carry no such key). The remaining
constructors are the exception classes caught by `__api_wrapper`
(traeger.py lines 509-518). -/
inductive ApiOutcome
  | success (authenticationResult : Option AuthResult)
  | timeoutError
  | clientError
  | keyOrTypeError
  | gaiError
  | otherError
deriving DecidableEq

/-- `__api_wrapper` (traeger.py lines 489-520) for the `"post"` method used by
`__do_cognito`: a parsed response body on success; every `except` branch only
logs and falls through to `return {}` — the empty dict, which has no
`AuthenticationResult` key and is therefore modelled as `none`. -/
def api_wrapper_post_cognito : ApiOutcome → Option AuthResult
  | .success body => body
  | .timeoutError => none
  | .clientError => none
  | .keyOrTypeError => none
  | .gaiError => none
  | .otherError => none

/-- `__refresh_token` (traeger.py lines 103-109). The returned `Bool` records
whether a network request was performed. Indexing the response dict raises
`KeyError("AuthenticationResult")` when the key is absent. -/
def refresh_token (now : Int) (outcome : ApiOutcome) (s : TraegerState) :
    Except PyErr (TraegerState × Bool) :=
  if token_remaining s now < 60 then
    let request_time := now
    match api_wrapper_post_cognito outcome with
    | none => .error (.keyError "AuthenticationResult")
    | some auth =>
      .ok ({ s with token_expires := auth.ExpiresIn + request_time,
                    token := some auth.IdToken }, true)
  else .ok (s, false)

/-! ## Command dispatcher (`__send_command` and its wrappers,
traeger.py lines 121-168) -/

/-- The API call `__send_command` makes: a POST to
`prod/things/(thingName)/commands` with body `(command = command)`. -/
structure GrillCommand where
  thingName : String
  command : String
deriving DecidableEq

def send_command (thingName command : String) : GrillCommand :=
  { thingName := thingName, command := command }

/-- `__update_state`: command `"90"`. -/
def update_state (thingName : String) : GrillCommand := send_command thingName "90"

/-- `set_temperature` (traeger.py lines 146-148): `f"11,(temp)"`. -/
def set_temperature (thingName : String) (temp : Int) : GrillCommand :=
  send_command thingName ("11," ++ toString temp)

/-- `set_probe_temperature`: `f"14,(temp)"`. -/
def set_probe_temperature (thingName : String) (temp : Int) : GrillCommand :=
  send_command thingName ("14," ++ toString temp)

/-- `set_switch`: `str(switchval)`. -/
def set_switch (thingName : String) (switchval : Int) : GrillCommand :=
  send_command thingName (toString switchval)

/-- `shutdown_grill`: command `"17"`. -/
def shutdown_grill (thingName : String) : GrillCommand := send_command thingName "17"

/-- `set_timer_sec` (traeger.py lines 162-164): `f"12,(time_s:05d)"`. -/
def set_timer_sec (thingName : String) (time_s : Int) : GrillCommand :=
  send_command thingName ("12," ++ pyFormat05d time_s)

/-- `reset_timer`: command `"13"`. -/
def reset_timer (thingName : String) : GrillCommand := send_command thingName "13"

/-! ## Callback fan-out registry (`set_callback_for_grill`, `grill_callback`,
traeger.py lines 180-188) -/

/-- `set_callback_for_grill` (traeger.py lines 180-182):
`self.grill_callbacks.get(grill_id, []).append(callback)`.
Python's `dict.get(key, default)` returns the stored list object when the key
is present — appending then mutates the dict's own list — but returns the
fresh default list when the key is absent, so the append mutates a temporary
that is immediately discarded and the dict is left unchanged. No other code
in the repository ever inserts a key into `grill_callbacks`. -/
def set_callback_for_grill (s : TraegerState) (grill_id : String) (callback : Nat) :
    TraegerState :=
  match alookup s.grill_callbacks grill_id with
  | some cbs =>
    { s with grill_callbacks := ainsert s.grill_callbacks grill_id (cbs ++ [callback]) }
  | none => s

/-- The callbacks fired for `grill_id` by one run of `grill_callback`
(traeger.py lines 184-188): every entry of the registered list when the key
is present, nothing otherwise. -/
def fire_callbacks (callbacks : List (String × List Nat)) (grill_id : String) : List Nat :=
  match alookup callbacks grill_id with
  | some cbs => cbs
  | none => []

/-- `grill_callback` on the client state. -/
def grill_callback (s : TraegerState) (grill_id : String) : List Nat :=
  fire_callbacks s.grill_callbacks grill_id

/-! ## Device state store accessors (traeger.py lines 384-423) -/

/-- `get_state_for_device`: `self.grill_status[thingName].status if thingName
in self.grill_status else None`. -/
def get_state_for_device (s : TraegerState) (thingName : String) : Option Status :=
  match alookup s.grill_status thingName with
  | some dev => some dev.status
  | none => none

/-- `get_details_for_device`. -/
def get_details_for_device (s : TraegerState) (thingName : String) : Option Details :=
  match alookup s.grill_status thingName with
  | some dev => some dev.details
  | none => none

/-- `get_limits_for_device`. -/
def get_limits_for_device (s : TraegerState) (thingName : String) : Option Limits :=
  match alookup s.grill_status thingName with
  | some dev => some dev.limits
  | none => none

/-- `get_settings_for_device`. -/
def get_settings_for_device (s : TraegerState) (thingName : String) : Option Settings :=
  match alookup s.grill_status thingName with
  | some dev => some dev.settings
  | none => none

/-- `get_features_for_device`. -/
def get_features_for_device (s : TraegerState) (thingName : String) : Option Features :=
  match alookup s.grill_status thingName with
  | some dev => some dev.features
  | none => none

/-- `get_cloudconnect`: `thingName in self.grill_status and
self.mqtt_thread_running`. -/
def get_cloudconnect (s : TraegerState) (thingName : String) : Bool :=
  (alookup s.grill_status thingName).isSome && s.mqtt_thread_running

/-- Home Assistant's `UnitOfTemperature` values used by the client. -/
inductive UnitOfTemperature
  | celsius
  | fahrenheit
deriving DecidableEq

/-- `get_units_for_device` (traeger.py lines 408-415):
`CELSIUS if state and state.units == 0 else FAHRENHEIT`. A `Status` object is
always truthy in Python, so `state` is the `is not None` test. -/
def get_units_for_device (s : TraegerState) (thingName : String) : UnitOfTemperature :=
  match get_state_for_device s thingName with
  | some state => if state.units = 0 then .celsius else .fahrenheit
  | none => .fahrenheit

/-! ## Streaming message handler (`mqtt_onmessage`, traeger.py lines 319-348) -/

/-- The fixed topic base of device updates: `"prod/thing/update/"`. -/
def updateTopic : String := "prod/thing/update/"

/-- An inbound MQTT message, as read by `mqtt_onmessage`. -/
structure MqttMessage where
  topic : String
  payload : String
deriving DecidableEq

/-- The body of the grill scan in `mqtt_onmessage` (traeger.py lines 341-348):
walk `self.grills` in order; a grill with no stored state exits the handler
(`return`), keeping whatever the earlier iterations concluded; a connected
grill whose `system_status` lies in `4 <= _ <= 8` makes the flag true. -/
def scan_grills_active : List Thing → List (String × Device) → Bool
  | [], _ => false
  | g :: rest, store =>
    match alookup store g.thingName with
    | none => false
    | some dev =>
      (dev.status.connected && decide (4 ≤ dev.status.system_status)
        && decide (dev.status.system_status ≤ 8)) || scan_grills_active rest store

/-- The working test of the scan on one stored device:
`state.connected` and `4 <= state.system_status <= 8`. -/
def grill_working (dev : Device) : Bool :=
  dev.status.connected && decide (4 ≤ dev.status.system_status)
    && decide (dev.status.system_status ≤ 8)

/-- The scan restated: among the known grills up to (excluding) the first one
with no stored state, some stored device passes `grill_working`. Proved equal
to `scan_grills_active` below. -/
def scan_spec (gs : List Thing) (store : List (String × Device)) : Bool :=
  (gs.takeWhile fun g => (alookup store g.thingName).isSome).any fun g =>
    ((alookup store g.thingName).map grill_working).getD false

/-- `mqtt_onmessage` (traeger.py lines 319-348). `parsePayload` is
`json.loads` composed with dacite `from_dict` — it raises on payloads that are
not valid JSON or do not fit `Device`, and `mqtt_onmessage` wraps it in no
`try`/`except`, so the result's first component is the exception, if any,
propagating out of the handler. The second component is the client state on
exit, the third the callbacks fired (scheduled) for the updated grill. -/
def mqtt_onmessage (parsePayload : String → Except PyErr Device) (msg : MqttMessage)
    (s : TraegerState) : Option PyErr × TraegerState × List Nat :=
  if strStartsWith msg.topic updateTopic then
    let grill_id := strDrop msg.topic (strLen updateTopic)
    match parsePayload msg.payload with
    | .error e => (some e, s, [])
    | .ok dev =>
      let s1 := { s with grill_status := ainsert s.grill_status grill_id dev }
      let fired := grill_callback s1 grill_id
      let s2 :=
        if s1.grills_active = false then
          if scan_grills_active s1.grills s1.grill_status then
            { s1 with grills_active := true }
          else s1
        else s1
      (none, s2, fired)
  else (none, s, [])

/-! ## Lifecycle: maintenance tick (`__mqtt_url_remaining`,
`__refresh_mqtt_url`, `__get_mqtt_client`, `__main`,
traeger.py lines 190-212, 231-272, 443-460) -/

/-- `__mqtt_url_remaining`: `self.mqtt_url_expires - time.time()`. -/
def mqtt_url_remaining (s : TraegerState) (now : Int) : Int :=
  s.mqtt_url_expires - now

/-- The body of a successful `/prod/mqtt-connections` response
(the two keys `__refresh_mqtt_url` reads). -/
structure MqttUrlResponse where
  expirationSeconds : Int
  signedUrl : String
deriving DecidableEq

/-- `__refresh_mqtt_url` (traeger.py lines 194-212) for a successful response.
The leading `__refresh_token` call touches only the token fields (see
`refresh_token`) and is orthogonal to the URL bookkeeping modelled here; the
`except` branches of the source only log. -/
def refresh_mqtt_url (now : Int) (resp : MqttUrlResponse) (s : TraegerState) :
    TraegerState :=
  if mqtt_url_remaining s now < 60 then
    { s with mqtt_url_expires := resp.expirationSeconds + now,
             mqtt_url := some resp.signedUrl }
  else s

/-- `__get_mqtt_client` (traeger.py lines 231-272): refresh the signed URL,
construct (or reinitialise) the MQTT client and connect it, and start the
worker thread when it is not already running. -/
def get_mqtt_client (now : Int) (resp : MqttUrlResponse) (s : TraegerState) :
    TraegerState :=
  let s1 := refresh_mqtt_url now resp s
  let s2 := { s1 with mqtt_client := some () }
  if s2.mqtt_thread_running = false then { s2 with mqtt_thread_running := true }
  else s2

/-- `__main` (traeger.py lines 443-460), one maintenance tick at time `now`:
when the signed URL has less than 60 seconds of validity left, set the
refreshing flag, disconnect the current client if the thread is running and a
client exists, rebuild via `__get_mqtt_client`, and clear the flag; in every
case reschedule after `max(self.__mqtt_url_remaining(), 30)` seconds,
computed on the post-tick state. Returns the new state and that delay. -/
def main_tick (now : Int) (resp : MqttUrlResponse) (s : TraegerState) :
    TraegerState × Int :=
  let s1 :=
    if mqtt_url_remaining s now < 60 then
      let sA := { s with mqtt_thread_refreshing := true }
      let sB :=
        if sA.mqtt_thread_running && sA.mqtt_client.isSome then
          { sA with mqtt_client := none }
        else sA
      let sC := get_mqtt_client now resp sB
      { sC with mqtt_thread_refreshing := false }
    else s
  (s1, max (mqtt_url_remaining s1 now) 30)

/-! ## Lifecycle: teardown (`kill`, traeger.py lines 462-486) -/

/-- The per-grill loop of `kill` (traeger.py lines 480-484): for each known
grill, in order, set `self.grill_status[grill_id].status.connected = False`
— a `KeyError` when the grill has no store entry — then fire its callbacks.
Returns the exception, if any, the store on exit, and the callbacks fired per
grill before the exception. -/
def kill_mark_grills :
    List Thing → List (String × Device) → List (String × List Nat) →
    Option PyErr × List (String × Device) × List (String × List Nat)
  | [], store, _ => (none, store, [])
  | g :: rest, store, callbacks =>
    match alookup store g.thingName with
    | none => (some (.keyError g.thingName), store, [])
    | some dev =>
      let store1 :=
        ainsert store g.thingName
          { dev with status := { dev.status with connected := false } }
      let fired := fire_callbacks callbacks g.thingName
      let tail := kill_mark_grills rest store1 callbacks
      (tail.1, tail.2.1, (g.thingName, fired) :: tail.2.2)

/-- `kill` (traeger.py lines 462-486). When the worker thread is running:
cancel the pending task, stop the thread, disconnect and drop the client,
expire the signed URL (`mqtt_url_expires = time.time()`), then run the
per-grill disconnect-and-notify loop. When it is not running, log
"Task Already Dead" and do nothing. -/
def kill (now : Int) (s : TraegerState) :
    Option PyErr × TraegerState × List (String × List Nat) :=
  if s.mqtt_thread_running then
    let s1 := { s with task := none, mqtt_thread_running := false,
                       mqtt_client := none, mqtt_url_expires := now }
    let res := kill_mark_grills s1.grills s1.grill_status s1.grill_callbacks
    (res.1, { s1 with grill_status := res.2.1 }, res.2.2)
  else (none, s, [])

/-! ## Concrete fixtures for witnesses and counterexamples -/

/-- A concrete `Status` with the three fields the claims read as parameters. -/
def mkStatus (connected : Bool) (system_status : Int) (units : Int) : Status :=
  { pellet_level := 100, real_time := 0, time := 0, errors := 0, sys_timer_start := 0,
    cook_id := "", probe := 0, server_status := 0, units := units, grill := 165,
    probe_set := 0, current_step := 0, system_status := system_status,
    sys_timer_end := 0, set := 165, in_custom := 0, smoke := 0,
    cook_timer_complete := 0, current_cycle := 0, probe_alarm_fired := 0,
    ambient := 20, probe_con := 0, sys_timer_complete := 0, cook_timer_start := 0,
    cook_timer_end := 0, keepwarm := 0, connected := connected, acc := [] }

/-- A concrete `Device` around a given `Status`. -/
def mkDevice (thingName : String) (st : Status) : Device :=
  { thingName := thingName, jobs := [], status := st,
    features := { pellet_sensor_enabled := 1, pellet_sensor_connected := 1,
                  open_loop_mode_enabled := 0, cold_smoke_enabled := 0,
                  grill_mode_enabled := 0, time := 0, super_smoke_enabled := 1 },
    limits := { max_grill_temp := 500 },
    settings := { rssi := -50, units := 1, time := 0, config_version := "2",
                  feature := 0, speaker := 0, device_type_id := 1, language := 0,
                  fw_version := "02.01.01", ssid := "net", fw_build_num := "7" },
    usage := { auger := 0, grill_clean_countdown := 0, time := 0,
               error_stats := { bad_thermocouple := 0, ignite_fail := 0,
                                auger_ovrcur := 0, overheat := 0, lowtemp := 0,
                                auger_disco := 0, low_ambient := 0, fan_disco := 0,
                                ign_disco := 0 },
               fan := 0, runtime := 0, hotrod := 0,
               grease_trap_clean_countdown := 0, cook_cycles := 0 },
    custom_cook := { cook_cycles := [] },
    stateIndex := 0, schemaVersion := "1",
    details := { thingName := thingName, userId := "u1", lastConnectedOn := 0,
                 thingNameLower := thingName, friendlyName := "Grill",
                 lat := "0", long := "0", deviceType := "2123" } }

/-- A concrete `Thing` (device-list entry). -/
def mkThing (thingName : String) : Thing :=
  { thingName := thingName, friendlyName := "Grill", deviceTypeId := "2123",
    userId := "u1", status := "ACTIVE", productId := "p1",
    grillModel := { colors := none, controller := "BAC365", description := "grill",
                    deviceTypeId := "2123", group := "pellet",
                    image := { defaultHost := "h", endpoint := "e", name := "i" },
                    iotCapable := true, isTraegerBrand := true, make := "Traeger",
                    modelNumber := "TFB", name := "Pro", ownersManualUrl := "m",
                    referenceProductId := "r" } }

/-- A freshly initialised client. -/
def freshClient : TraegerState := initClient "user" "pw" 50

/-- A client whose token expired long ago, observed at `now = 1000`. -/
def expiredTokenClient : TraegerState := initClient "user" "pw" 0

/-- A client holding a token valid until `t = 1000`. -/
def freshTokenClient : TraegerState := { freshClient with token_expires := 1000 }

/-! ## Dictionary lemmas -/

theorem alookup_ainsert_self {α : Type} (l : List (String × α)) (k : String) (v : α) :
    alookup (ainsert l k v) k = some v := by
  induction l with
  | nil => simp [ainsert, alookup]
  | cons p rest ih =>
    obtain ⟨k0, v0⟩ := p
    by_cases h : k0 = k
    · simp [ainsert, h, alookup]
    · simp [ainsert, h, alookup, ih]

theorem alookup_ainsert_ne {α : Type} (l : List (String × α)) (k key : String) (v : α)
    (h : key ≠ k) : alookup (ainsert l k v) key = alookup l key := by
  induction l with
  | nil => simp [ainsert, alookup, Ne.symm h]
  | cons p rest ih =>
    obtain ⟨k0, v0⟩ := p
    by_cases h0 : k0 = k
    · subst h0
      simp [ainsert, alookup, Ne.symm h]
    · by_cases h1 : k0 = key
      · subst h1
        simp [ainsert, alookup, h0]
      · simp [ainsert, alookup, h0, h1, ih]

theorem alookup_ainsert_isSome {α : Type} (l : List (String × α)) (k key : String) (v : α)
    (h : (alookup l key).isSome) : (alookup (ainsert l k v) key).isSome := by
  by_cases hk : key = k
  · subst hk
    simp [alookup_ainsert_self]
  · rwa [alookup_ainsert_ne l k key v hk]

/-! ## Claim C1 (code bug): callback registration is silently dropped -/

/-- C1: the claim says `set_callback_for_grill(id, fn)` appends `fn` to the
callback list kept for `id`, so that `grill_callback(id)` then invokes it.
The code appends to the temporary produced by `dict.get(grill_id, [])`, which
is discarded when the key is absent — and no code path ever inserts a key
into `grill_callbacks` — so on a fresh client registration leaves the
registry empty and notification fires nothing. -/
theorem c1_register_callback_lost :
    set_callback_for_grill freshClient "grill_1" 0 = freshClient ∧
    (set_callback_for_grill freshClient "grill_1" 0).grill_callbacks = [] ∧
    grill_callback (set_callback_for_grill freshClient "grill_1" 0) "grill_1" = [] :=
  ⟨rfl, rfl, rfl⟩

/-! ## Claim C3 (corrected): refresh failures raise KeyError, not AuthError -/

/-- C3 counterexample: with the token stale, a timed-out Cognito call and a
credential-rejection response (body without `AuthenticationResult`) both make
`__refresh_token` raise `KeyError("AuthenticationResult")` — an exception
different from the `AuthError` the claim requires. -/
theorem c3_refresh_fails_with_keyerror_counterexample :
    refresh_token 1000 ApiOutcome.timeoutError expiredTokenClient =
      .error (PyErr.keyError "AuthenticationResult") ∧
    refresh_token 1000 (ApiOutcome.success none) expiredTokenClient =
      .error (PyErr.keyError "AuthenticationResult") ∧
    PyErr.keyError "AuthenticationResult" ≠ PyErr.authError :=
  ⟨rfl, rfl, by decide⟩

/-- C3 amended: whenever the token needs refreshing and the identity provider
rejects the credentials or the network call fails (the API wrapper then
returns an empty dict), `__refresh_token` raises
`KeyError("AuthenticationResult")` — it does not succeed silently, and the
exception is not `AuthError`. -/
theorem c3_refresh_failure_keyerror (s : TraegerState) (now : Int) (outcome : ApiOutcome)
    (hrem : token_remaining s now < 60)
    (hfail : api_wrapper_post_cognito outcome = none) :
    refresh_token now outcome s = .error (PyErr.keyError "AuthenticationResult") ∧
    PyErr.keyError "AuthenticationResult" ≠ PyErr.authError := by
  constructor
  · simp [refresh_token, hrem, hfail]
  · decide

/-- C3 witness: the amended theorem applied at a concrete stale client and a
concrete connection error. -/
theorem c3_refresh_failure_keyerror_witness :
    refresh_token 1000 ApiOutcome.clientError expiredTokenClient =
      .error (PyErr.keyError "AuthenticationResult") ∧
    PyErr.keyError "AuthenticationResult" ≠ PyErr.authError :=
  c3_refresh_failure_keyerror expiredTokenClient 1000 ApiOutcome.clientError
    (by decide) rfl

/-! ## Claim C6 (confirmed): token refresh is idempotent -/

/-- C6: with at least 60 seconds of token lifetime remaining, a refresh call
performs no network request and leaves the state unchanged; and when a call
inside the 60-second safety window refreshes (one network request), a second
consecutive call — made while the new token still has at least 60 seconds
left — performs none, so the two calls perform exactly one request in
total. -/
theorem c6_refresh_token_idempotent (s : TraegerState) (t1 t2 : Int)
    (auth : AuthResult) (o2 : ApiOutcome)
    (hwin : token_remaining s t1 < 60) (_hle : t1 ≤ t2)
    (hexp : 60 + (t2 - t1) ≤ auth.ExpiresIn) :
    (∀ (u : TraegerState) (now : Int) (o : ApiOutcome),
        60 ≤ token_remaining u now → refresh_token now o u = .ok (u, false)) ∧
    refresh_token t1 (ApiOutcome.success (some auth)) s =
      .ok ({ s with token_expires := auth.ExpiresIn + t1,
                    token := some auth.IdToken }, true) ∧
    refresh_token t2 o2
        { s with token_expires := auth.ExpiresIn + t1, token := some auth.IdToken } =
      .ok ({ s with token_expires := auth.ExpiresIn + t1,
                    token := some auth.IdToken }, false) := by
  refine ⟨?_, ?_, ?_⟩
  · intro u now o h
    unfold refresh_token
    rw [if_neg (by omega)]
  · unfold refresh_token
    rw [if_pos hwin]
    rfl
  · unfold refresh_token
    rw [if_neg ?_]
    simp only [token_remaining]
    omega

/-- C6 witness: the idempotent branch of the theorem applied to a client whose
token is valid until `t = 1000`, observed at `now = 0`. -/
theorem c6_refresh_token_idempotent_witness :
    refresh_token 0 ApiOutcome.otherError freshTokenClient =
      .ok (freshTokenClient, false) :=
  (c6_refresh_token_idempotent expiredTokenClient 1000 1010
      { ExpiresIn := 3600, IdToken := "tok" } ApiOutcome.otherError
      (by decide) (by decide) (by decide)).1
    freshTokenClient 0 ApiOutcome.otherError (by decide)

/-! ## Claim C7 (confirmed): command string encodings -/

/-- C7: `set_temperature(id, 225)` emits exactly `"11,225"` and
`set_timer_sec(id, 300)` emits exactly `"12,00300"`; in general
`set_temperature(id, t)` emits `"11,"` followed by the decimal rendering of
`t`, and `set_timer_sec(id, s)` emits `"12,"` followed by `s` zero-padded to
5 digits, both addressed to the device's command endpoint. -/
theorem c7_command_strings (thingName : String) (temp time_s : Int) :
    (set_temperature thingName 225).command = "11,225" ∧
    (set_timer_sec thingName 300).command = "12,00300" ∧
    (set_temperature thingName temp).command = "11," ++ toString temp ∧
    (set_timer_sec thingName time_s).command = "12," ++ pyFormat05d time_s ∧
    (set_temperature thingName temp).thingName = thingName ∧
    (set_timer_sec thingName time_s).thingName = thingName := by
  refine ⟨?_, ?_, rfl, rfl, rfl, rfl⟩
  · show "11," ++ toString (225 : Int) = "11,225"
    decide
  · show "12," ++ pyFormat05d 300 = "12,00300"
    decide

/-! ## Claim C9 (confirmed): accessors return absent for unknown devices -/

/-- C9: for a device with no entry in the store, each typed read accessor —
state, details, limits, settings, features — returns `none` rather than
raising. -/
theorem c9_accessors_absent_none (s : TraegerState) (thingName : String)
    (h : alookup s.grill_status thingName = none) :
    get_state_for_device s thingName = none ∧
    get_details_for_device s thingName = none ∧
    get_limits_for_device s thingName = none ∧
    get_settings_for_device s thingName = none ∧
    get_features_for_device s thingName = none := by
  simp [get_state_for_device, get_details_for_device, get_limits_for_device,
        get_settings_for_device, get_features_for_device, h]

/-- C9 witness: the accessor theorem applied to a fresh client with an empty
store. -/
theorem c9_accessors_absent_none_witness :
    get_state_for_device freshClient "grill_1" = none ∧
    get_details_for_device freshClient "grill_1" = none ∧
    get_limits_for_device freshClient "grill_1" = none ∧
    get_settings_for_device freshClient "grill_1" = none ∧
    get_features_for_device freshClient "grill_1" = none :=
  c9_accessors_absent_none freshClient "grill_1" rfl

/-! ## Claim C10 (confirmed): unit accessor is total, defaulting to Fahrenheit -/

/-- C10: for a device with no stored state the unit accessor returns
Fahrenheit, and it returns Celsius exactly when a stored state exists with
`units == 0`; it never returns absent. -/
theorem c10_units_fahrenheit_default (s : TraegerState) (thingName : String) :
    (get_state_for_device s thingName = none →
      get_units_for_device s thingName = UnitOfTemperature.fahrenheit) ∧
    (get_units_for_device s thingName = UnitOfTemperature.celsius ↔
      ∃ st, get_state_for_device s thingName = some st ∧ st.units = 0) := by
  constructor
  · intro h
    simp [get_units_for_device, h]
  · unfold get_units_for_device
    cases h : get_state_for_device s thingName with
    | none => simp
    | some st =>
      by_cases hu : st.units = 0
      · simp [hu]
      · simp [hu]

/-- C10 witness: the default branch of the unit theorem applied to a fresh
client with an empty store. -/
theorem c10_units_fahrenheit_default_witness :
    get_units_for_device freshClient "grill_1" = UnitOfTemperature.fahrenheit :=
  (c10_units_fahrenheit_default freshClient "grill_1").1 rfl

/-! ## Claim C4 (corrected): malformed payloads leave state unchanged but the
exception escapes the handler -/

/-- The behaviour of `json.loads` on a payload that is not valid JSON:
it raises `json.JSONDecodeError`. -/
def json_loads_invalid : String → Except PyErr Device :=
  fun _ => .error PyErr.jsonDecodeError

/-- An update-topic message whose payload is not valid JSON. -/
def badJsonMsg : MqttMessage :=
  { topic := "prod/thing/update/grill_1", payload := "not json" }

/-- C4 counterexample: the claim says a malformed payload is dropped and the
streaming worker context does not crash. On a concrete malformed message the
handler leaves the store unchanged but the `json.loads` exception propagates
uncaught out of `mqtt_onmessage` — there is no try/except, logging or
dropping in the handler, contradicting the no-crash part of the claim. -/
theorem c4_malformed_payload_counterexample :
    (mqtt_onmessage json_loads_invalid badJsonMsg freshClient).1 =
      some PyErr.jsonDecodeError ∧
    (mqtt_onmessage json_loads_invalid badJsonMsg freshClient).2.1 = freshClient ∧
    (mqtt_onmessage json_loads_invalid badJsonMsg freshClient).2.2 = [] :=
  ⟨rfl, rfl, rfl⟩

/-- C4 amended: for every subscribed device and every inbound message on its
update topic whose payload fails to parse, the device's stored state is
unchanged and no callbacks fire, but the parse exception propagates uncaught
out of the message handler (nothing in the handler catches, logs or drops
it). -/
theorem c4_malformed_payload_state_unchanged
    (parsePayload : String → Except PyErr Device) (msg : MqttMessage)
    (s : TraegerState) (e : PyErr)
    (htopic : strStartsWith msg.topic updateTopic = true)
    (hparse : parsePayload msg.payload = .error e) :
    mqtt_onmessage parsePayload msg s = (some e, s, []) := by
  simp [mqtt_onmessage, htopic, hparse]

/-- C4 witness: the amended theorem applied to a concrete malformed message
on a second device's topic. -/
theorem c4_malformed_payload_state_unchanged_witness :
    mqtt_onmessage json_loads_invalid
      { topic := "prod/thing/update/grill_2", payload := "((" } freshClient =
      (some PyErr.jsonDecodeError, freshClient, []) :=
  c4_malformed_payload_state_unchanged json_loads_invalid
    { topic := "prod/thing/update/grill_2", payload := "((" } freshClient
    PyErr.jsonDecodeError (by decide) rfl

/-! ## Claim C5 (corrected): the any-device-active scan uses modes 4 through 8 -/

/-- The working-mode scan equals its takeWhile/any restatement. -/
theorem scan_grills_active_eq_spec (gs : List Thing) (store : List (String × Device)) :
    scan_grills_active gs store = scan_spec gs store := by
  induction gs with
  | nil => rfl
  | cons g rest ih =>
    unfold scan_grills_active scan_spec
    cases h : alookup store g.thingName with
    | none => simp [List.takeWhile_cons, h]
    | some dev =>
      simp only [List.takeWhile_cons, h, Option.isSome_some, if_true, List.any_cons,
        Option.map_some, Option.getD_some, grill_working]
      rw [ih]
      rfl

/-- A device reporting the cool-down mode (`system_status = 8`), connected. -/
def coolDownDevice : Device := mkDevice "grill_1" (mkStatus true 8 1)

/-- A device reporting the igniting mode (`system_status = 4`), connected. -/
def ignitingDevice : Device := mkDevice "grill_1" (mkStatus true 4 1)

/-- A client that knows one grill and has received nothing yet. -/
def oneGrillClient : TraegerState :=
  { freshClient with grills := [mkThing "grill_1"] }

/-- The update message for `grill_1`. -/
def grill1Msg : MqttMessage :=
  { topic := "prod/thing/update/grill_1", payload := "payload" }

/-- Parsing that yields the cool-down device. -/
def parse_cooldown : String → Except PyErr Device := fun _ => .ok coolDownDevice

/-- Parsing that yields the igniting device. -/
def parse_igniting : String → Except PyErr Device := fun _ => .ok ignitingDevice

/-- C5 counterexample: the claim says `grills_active` becomes true exactly
when some connected device's mode lies in IGNITING=4 through CUSTOM_COOK=7.
Processing an update that stores a connected device in mode 8 (COOL_DOWN,
outside 4..7) sets the flag to true: the code tests `4 <= system_status <= 8`,
not `<= 7`. -/
theorem c5_cooldown_sets_active_counterexample :
    (mqtt_onmessage parse_cooldown grill1Msg oneGrillClient).2.1.grills_active = true ∧
    (mqtt_onmessage parse_cooldown grill1Msg oneGrillClient).2.1.grill_status =
      [("grill_1", coolDownDevice)] ∧
    coolDownDevice.status.system_status = 8 ∧
    ¬(4 ≤ coolDownDevice.status.system_status ∧
      coolDownDevice.status.system_status ≤ 7) := by
  refine ⟨?_, ?_, ?_, ?_⟩ <;> decide

/-- C5 amended: while processing a well-formed inbound update message, the
client leaves an already-true `grills_active` flag true, and otherwise sets it
to true exactly when, scanning the known devices in order and stopping at the
first with no stored state, some scanned device is connected with numeric
operating mode between 4 (IGNITING) and 8 (COOL_DOWN) inclusive — the range
extends through COOL_DOWN=8, not CUSTOM_COOK=7 as the claim states. -/
theorem c5_grills_active_range (parsePayload : String → Except PyErr Device)
    (msg : MqttMessage) (s : TraegerState) (dev : Device)
    (htopic : strStartsWith msg.topic updateTopic = true)
    (hparse : parsePayload msg.payload = .ok dev) :
    (mqtt_onmessage parsePayload msg s).2.1.grills_active =
      (s.grills_active ||
        scan_spec s.grills
          (ainsert s.grill_status (strDrop msg.topic (strLen updateTopic)) dev)) := by
  simp only [mqtt_onmessage, htopic, if_true, hparse]
  cases hga : s.grills_active with
  | true => simp [hga]
  | false =>
    simp only [hga, Bool.false_or]
    rw [← scan_grills_active_eq_spec]
    by_cases hscan :
        scan_grills_active s.grills
          (ainsert s.grill_status (strDrop msg.topic (strLen updateTopic)) dev) = true
    · simp [hscan]
    · simp [hscan]

/-- C5 witness: the amended theorem applied to a concrete igniting-mode
update on a one-grill client. -/
theorem c5_grills_active_range_witness :
    (mqtt_onmessage parse_igniting grill1Msg oneGrillClient).2.1.grills_active =
      (oneGrillClient.grills_active ||
        scan_spec oneGrillClient.grills
          (ainsert oneGrillClient.grill_status
            (strDrop grill1Msg.topic (strLen updateTopic)) ignitingDevice)) :=
  c5_grills_active_range parse_igniting grill1Msg oneGrillClient ignitingDevice
    (by decide) rfl

/-! ## Claim C2 (corrected): kill marks devices disconnected only under
conditions -/

/-- Every binding the kill loop writes is a disconnected device: each key
either keeps its pre-loop binding or ends bound to a device with
`connected = false`. -/
theorem kill_mark_grills_lookup (gs : List Thing) (store : List (String × Device))
    (cbs : List (String × List Nat)) (key : String) :
    alookup (kill_mark_grills gs store cbs).2.1 key = alookup store key ∨
    ∃ d, alookup (kill_mark_grills gs store cbs).2.1 key = some d ∧
      d.status.connected = false := by
  induction gs generalizing store with
  | nil => exact Or.inl rfl
  | cons g rest ih =>
    simp only [kill_mark_grills]
    cases h : alookup store g.thingName with
    | none => exact Or.inl rfl
    | some dev =>
      rcases ih (ainsert store g.thingName
          { dev with status := { dev.status with connected := false } }) with h1 | h2
      · by_cases hk : key = g.thingName
        · subst hk
          right
          refine ⟨{ dev with status := { dev.status with connected := false } }, ?_, rfl⟩
          rw [h1, alookup_ainsert_self]
        · left
          rw [h1, alookup_ainsert_ne store g.thingName key _ hk]
      · right
        exact h2

/-- When every listed grill has a store entry, the kill loop raises nothing,
fires each grill's registered callbacks in order, and leaves every listed
grill's stored device disconnected. -/
theorem kill_mark_grills_all (gs : List Thing) (store : List (String × Device))
    (cbs : List (String × List Nat))
    (h : ∀ g ∈ gs, (alookup store g.thingName).isSome) :
    (kill_mark_grills gs store cbs).1 = none ∧
    (kill_mark_grills gs store cbs).2.2 =
      gs.map (fun g => (g.thingName, fire_callbacks cbs g.thingName)) ∧
    ∀ g ∈ gs, ∃ d,
      alookup (kill_mark_grills gs store cbs).2.1 g.thingName = some d ∧
      d.status.connected = false := by
  induction gs generalizing store with
  | nil => exact ⟨rfl, rfl, by simp⟩
  | cons g rest ih =>
    have hg : (alookup store g.thingName).isSome := h g (List.mem_cons_self g rest)
    obtain ⟨dev, hdev⟩ := Option.isSome_iff_exists.mp hg
    have hrest : ∀ g2 ∈ rest,
        (alookup (ainsert store g.thingName
          { dev with status := { dev.status with connected := false } })
            g2.thingName).isSome :=
      fun g2 hg2 => alookup_ainsert_isSome _ _ _ _ (h g2 (List.mem_cons_of_mem g hg2))
    obtain ⟨ih1, ih2, ih3⟩ := ih _ hrest
    simp only [kill_mark_grills, hdev]
    refine ⟨ih1, ?_, ?_⟩
    · simp [ih2]
    · intro g2 hg2
      rcases List.mem_cons.mp hg2 with heq | hmem
      · subst heq
        rcases kill_mark_grills_lookup rest (ainsert store g2.thingName
            { dev with status := { dev.status with connected := false } }) cbs
            g2.thingName with h1 | h2
        · refine ⟨{ dev with status := { dev.status with connected := false } }, ?_, rfl⟩
          rw [h1, alookup_ainsert_self]
        · exact h2
      · exact ih3 g2 hmem

/-- A stopped client (worker thread not running) that still holds one
connected stored device and one registered callback entry. -/
def c2StoppedClient : TraegerState :=
  { freshClient with
      grills := [mkThing "grill_1"],
      grill_status := [("grill_1", mkDevice "grill_1" (mkStatus true 6 1))],
      grill_callbacks := [("grill_1", [7])] }

/-- The same client with the worker thread running. -/
def c2RunningClient : TraegerState :=
  { c2StoppedClient with
      mqtt_thread_running := true,
      mqtt_client := some (),
      task := some () }

/-- A running client that knows a grill which never reported (empty store). -/
def c2NoStateClient : TraegerState :=
  { freshClient with
      mqtt_thread_running := true,
      mqtt_client := some (),
      grills := [mkThing "grill_1"] }

/-- C2 counterexample: the claim promises that after `kill` every stored
device has `connected == false` and every registered callback has fired,
regardless of prior streaming state. On a concrete stopped client (worker
thread not running) `kill` is a no-op: the stored device stays connected and
the registered callback does not fire. And on a running client with a known
device that never reported, the per-grill loop raises
`KeyError("grill_1")`. -/
theorem c2_kill_counterexample :
    (kill 100 c2StoppedClient).1 = none ∧
    (kill 100 c2StoppedClient).2.1 = c2StoppedClient ∧
    (kill 100 c2StoppedClient).2.2 = [] ∧
    Option.map Status.connected
      (get_state_for_device (kill 100 c2StoppedClient).2.1 "grill_1") = some true ∧
    fire_callbacks c2StoppedClient.grill_callbacks "grill_1" = [7] ∧
    (kill 100 c2NoStateClient).1 = some (PyErr.keyError "grill_1") :=
  ⟨rfl, rfl, rfl, rfl, rfl, rfl⟩

/-- C2 amended: when the worker thread is running and every known device has
a store entry, `kill` raises nothing, leaves every known device's stored
connectivity flag false, fires each known device's registered callbacks, and
stops the thread. (When the thread is not running, `kill` is a logged no-op;
a known device absent from the store makes the loop raise `KeyError`.) -/
theorem c2_kill_marks_disconnected (s : TraegerState) (now : Int)
    (hrun : s.mqtt_thread_running = true)
    (hall : ∀ g ∈ s.grills, (alookup s.grill_status g.thingName).isSome) :
    (kill now s).1 = none ∧
    (∀ g ∈ s.grills, ∃ d,
        alookup (kill now s).2.1.grill_status g.thingName = some d ∧
        d.status.connected = false) ∧
    (kill now s).2.2 =
      s.grills.map
        (fun g => (g.thingName, fire_callbacks s.grill_callbacks g.thingName)) ∧
    (kill now s).2.1.mqtt_thread_running = false := by
  obtain ⟨h1, h2, h3⟩ :=
    kill_mark_grills_all s.grills s.grill_status s.grill_callbacks hall
  unfold kill
  rw [if_pos hrun]
  exact ⟨h1, h3, h2, rfl⟩

/-- C2 witness: the amended theorem applied to a concrete running client with
one connected stored device and one registered callback. -/
theorem c2_kill_marks_disconnected_witness :
    (kill 100 c2RunningClient).1 = none ∧
    (kill 100 c2RunningClient).2.2 = [("grill_1", [7])] ∧
    (kill 100 c2RunningClient).2.1.mqtt_thread_running = false ∧
    Option.map Status.connected
      (get_state_for_device (kill 100 c2RunningClient).2.1 "grill_1") =
        some false := by
  have h := c2_kill_marks_disconnected c2RunningClient 100 rfl (by decide)
  refine ⟨h.1, ?_, h.2.2.2, ?_⟩
  · rw [h.2.2.1]
    decide
  · obtain ⟨d, hd, hconn⟩ := h.2.1 (mkThing "grill_1") (by decide)
    rw [show (mkThing "grill_1").thingName = "grill_1" from rfl] at hd
    simp [get_state_for_device, hd, hconn]

/-! ## Claim C8 (confirmed): the maintenance tick refreshes under 60s and
reschedules adaptively -/

/-- C8: on a maintenance tick at time `now`, with the worker thread running
and a client present: when the signed URL has less than 60 seconds of
validity left, the connection is torn down and re-established with the fresh
URL and the next tick is scheduled after `max(new_remaining, 30) =
max(expirationSeconds, 30)` seconds — and if the URL was still valid
(remaining > 0) the reconnect happens strictly before its hard expiry; when
at least 60 seconds remain, the state is untouched and the next tick is
scheduled after `max(remaining, 30)` seconds. -/
theorem c8_main_tick_reconnect (s : TraegerState) (now : Int)
    (resp : MqttUrlResponse)
    (hrun : s.mqtt_thread_running = true) (hcli : s.mqtt_client = some ()) :
    (mqtt_url_remaining s now < 60 →
      (main_tick now resp s).1.mqtt_url = some resp.signedUrl ∧
      (main_tick now resp s).1.mqtt_url_expires = resp.expirationSeconds + now ∧
      (main_tick now resp s).1.mqtt_client = some () ∧
      (main_tick now resp s).1.mqtt_thread_running = true ∧
      (main_tick now resp s).2 = max resp.expirationSeconds 30 ∧
      (0 < mqtt_url_remaining s now → now < s.mqtt_url_expires)) ∧
    (60 ≤ mqtt_url_remaining s now →
      (main_tick now resp s).1 = s ∧
      (main_tick now resp s).2 = max (mqtt_url_remaining s now) 30) := by
  constructor
  · intro h60
    have h60b : s.mqtt_url_expires - now < 60 := h60
    have hmain : main_tick now resp s =
        ({ s with mqtt_thread_refreshing := false,
                  mqtt_client := some (),
                  mqtt_url_expires := resp.expirationSeconds + now,
                  mqtt_url := some resp.signedUrl },
         max (resp.expirationSeconds + now - now) 30) := by
      simp [main_tick, get_mqtt_client, refresh_mqtt_url, mqtt_url_remaining, h60b,
        hrun, hcli]
    rw [hmain]
    refine ⟨rfl, rfl, rfl, hrun, ?_, ?_⟩
    · show max (resp.expirationSeconds + now - now) 30 = max resp.expirationSeconds 30
      rw [Int.add_sub_cancel]
    · intro hpos
      simp only [mqtt_url_remaining] at hpos
      omega
  · intro h60
    have hcond : ¬(mqtt_url_remaining s now < 60) := by omega
    refine ⟨?_, ?_⟩ <;>
      · simp only [main_tick]
        rw [if_neg hcond]

/-- A running, connected client whose signed URL expires at `t = 100`. -/
def c8Client : TraegerState :=
  { freshClient with
      mqtt_thread_running := true,
      mqtt_client := some (),
      mqtt_url := some "wss://old",
      mqtt_url_expires := 100 }

/-- A fresh signed-URL response valid for 7200 seconds. -/
def c8Resp : MqttUrlResponse := { expirationSeconds := 7200, signedUrl := "wss://new" }

/-- C8 witness: the refresh branch of the tick theorem applied at `now = 90`,
10 seconds before the concrete client's URL expiry. -/
theorem c8_main_tick_reconnect_witness :
    (main_tick 90 c8Resp c8Client).1.mqtt_url = some "wss://new" ∧
    (main_tick 90 c8Resp c8Client).2 = max 7200 30 := by
  have h := (c8_main_tick_reconnect c8Client 90 c8Resp rfl rfl).1 (by decide)
  exact ⟨h.1, h.2.2.2.2.1⟩

end Traeger

